import Mathlib

/-!
# Verification of the laugh_engine deferred renderer

Shallow embedding of `src/laugh_engine/deferred_renderer.h`
(class `DeferredRenderer`).  Pure data that the C++ code feeds to the
Vulkan API (submit batches, render-pass descriptions, descriptor
writes, command-buffer contents) is modelled as Lean structures, and
the recording/submission code is translated into executable functions
over those structures.
-/

namespace LaughEngine

/-! ## Vulkan pipeline-stage and access bits

Numeric values follow the Vulkan headers (`VkPipelineStageFlagBits`,
`VkAccessFlagBits`); masks are combined with bitwise or, exactly as the
C++ code does. -/

def stageTopOfPipe : ℕ := 0x1
def stageFragmentShader : ℕ := 0x80
def stageEarlyFragmentTests : ℕ := 0x100
def stageLateFragmentTests : ℕ := 0x200
def stageColorAttachmentOutput : ℕ := 0x400
def stageBottomOfPipe : ℕ := 0x2000

def accessInputAttachmentRead : ℕ := 0x10
def accessShaderRead : ℕ := 0x20
def accessShaderWrite : ℕ := 0x40
def accessColorAttachmentRead : ℕ := 0x80
def accessColorAttachmentWrite : ℕ := 0x100
def accessDepthStencilAttachmentRead : ℕ := 0x200
def accessDepthStencilAttachmentWrite : ℕ := 0x400

/-- Predicate `maskCovers mask req`: holds when every bit of `req` is set in `mask`. -/
def maskCovers (mask req : ℕ) : Bool := mask &&& req = req

/-! ## Frame submission (`DeferredRenderer::drawFrame`)

`drawFrame` acquires a swapchain image, submits three command-buffer
batches chained by semaphores, and presents.  The embedding takes the
acquisition result and the presentation result as inputs and returns
everything the function hands to the Vulkan API. -/

/-- Result codes returned by swapchain acquisition / presentation.
`otherError` stands for any result that is none of the other three. -/
inductive VkResult where
  | success
  | suboptimalKHR
  | errorOutOfDateKHR
  | otherError
deriving DecidableEq, Repr

/-- The semaphores created in `createSynchronizationObjects`. -/
inductive Semaphore where
  | imageAvailable
  | geomAndLightingComplete
  | postEffect
  | finalOutputFinished
  | renderFinished
deriving DecidableEq, Repr

/-- The command buffers referenced by `drawFrame`. -/
inductive CmdBuf where
  | geomAndLighting
  | postEffect
  | present (imageIndex : ℕ)
deriving DecidableEq, Repr

/-- One batch handed to `queueSubmitNewSubmit`. -/
structure QueueSubmit where
  cmdBufs : List CmdBuf
  waitSemaphores : List Semaphore
  waitStageMasks : List ℕ
  signalSemaphores : List Semaphore
deriving DecidableEq, Repr

/-- Observable outcome of one `drawFrame` call. -/
structure DrawFrameOutcome where
  recreatedSwapChain : Bool
  submissions : List QueueSubmit
  presented : Option (List Semaphore × ℕ)
  fatalError : Option String
deriving DecidableEq, Repr

/-- Embedding of `DeferredRenderer::drawFrame` (deferred_renderer.h:345-386). -/
def drawFrame (acquireResult : VkResult) (imageIndex : ℕ)
    (presentResult : VkResult) : DrawFrameOutcome :=
  if acquireResult = VkResult.errorOutOfDateKHR then
    { recreatedSwapChain := true, submissions := [], presented := none, fatalError := none }
  else if acquireResult ≠ VkResult.success ∧ acquireResult ≠ VkResult.suboptimalKHR then
    { recreatedSwapChain := false, submissions := [], presented := none,
      fatalError := some "failed to acquire swap chain image!" }
  else
    let submissions : List QueueSubmit :=
      [ { cmdBufs := [CmdBuf.geomAndLighting],
          waitSemaphores := [Semaphore.imageAvailable],
          waitStageMasks := [stageColorAttachmentOutput],
          signalSemaphores := [Semaphore.geomAndLightingComplete] },
        { cmdBufs := [CmdBuf.postEffect],
          waitSemaphores := [Semaphore.geomAndLightingComplete],
          waitStageMasks := [stageColorAttachmentOutput],
          signalSemaphores := [Semaphore.postEffect] },
        { cmdBufs := [CmdBuf.present imageIndex],
          waitSemaphores := [Semaphore.postEffect],
          waitStageMasks := [stageColorAttachmentOutput],
          signalSemaphores := [Semaphore.finalOutputFinished] } ]
    if presentResult = VkResult.errorOutOfDateKHR ∨ presentResult = VkResult.suboptimalKHR then
      { recreatedSwapChain := true, submissions := submissions,
        presented := some ([Semaphore.finalOutputFinished], imageIndex), fatalError := none }
    else if presentResult ≠ VkResult.success then
      { recreatedSwapChain := false, submissions := submissions,
        presented := some ([Semaphore.finalOutputFinished], imageIndex),
        fatalError := some "failed to present swap chain image!" }
    else
      { recreatedSwapChain := false, submissions := submissions,
        presented := some ([Semaphore.finalOutputFinished], imageIndex), fatalError := none }

/-! ## Render passes

A render pass is the data handed to the `beginCreateRenderPass` /
`renderPassAddAttachment` / subpass / dependency builder calls.
`VK_SUBPASS_EXTERNAL` is modelled as `none`. -/

inductive VkLayout where
  | undefined
  | colorAttachmentOptimal
  | depthStencilAttachmentOptimal
  | depthStencilReadOnlyOptimal
  | shaderReadOnlyOptimal
  | presentSrcKHR
  | general
deriving DecidableEq, Repr

inductive LoadOp where
  | clear
  | load
deriving DecidableEq, Repr

structure AttachmentDesc where
  formatId : ℕ
  initialLayout : VkLayout
  finalLayout : VkLayout
  loadOp : LoadOp
deriving DecidableEq, Repr

structure AttachmentRef where
  attachment : ℕ
  layout : VkLayout
deriving DecidableEq, Repr

structure SubpassDesc where
  colorRefs : List AttachmentRef
  inputRefs : List AttachmentRef
  depthRef : Option AttachmentRef
deriving DecidableEq, Repr

structure SubpassDependency where
  srcSubpass : Option ℕ
  dstSubpass : Option ℕ
  srcStageMask : ℕ
  dstStageMask : ℕ
  srcAccessMask : ℕ
  dstAccessMask : ℕ
deriving DecidableEq, Repr

structure RenderPass where
  attachments : List AttachmentDesc
  subpasses : List SubpassDesc
  dependencies : List SubpassDependency
deriving DecidableEq, Repr

/-- Format identifiers (stand-ins for the `VkFormat` values used;
only identity matters to the claims). -/
def fmtDepth : ℕ := 0
def fmtR32G32B32A32Sfloat : ℕ := 1
def fmtR8G8B8A8Unorm : ℕ := 2
def fmtR16G16B16A16Sfloat : ℕ := 3
def fmtSwapChain : ℕ := 4

/-- Embedding of `createGeometryAndLightingRenderPass`
(deferred_renderer.h:810-876).  Attachment order: depth, G-buffer 1
(normal+albedo), G-buffer 2 (world position), G-buffer 3 (RMAI),
lighting result.  Subpass 0 is the geometry subpass, subpass 1 the
lighting subpass. -/
def geomAndLightRenderPass : RenderPass :=
  { attachments :=
      [ { formatId := fmtDepth, initialLayout := VkLayout.undefined,
          finalLayout := VkLayout.shaderReadOnlyOptimal, loadOp := LoadOp.clear },
        { formatId := fmtR32G32B32A32Sfloat, initialLayout := VkLayout.undefined,
          finalLayout := VkLayout.shaderReadOnlyOptimal, loadOp := LoadOp.clear },
        { formatId := fmtR32G32B32A32Sfloat, initialLayout := VkLayout.undefined,
          finalLayout := VkLayout.shaderReadOnlyOptimal, loadOp := LoadOp.clear },
        { formatId := fmtR8G8B8A8Unorm, initialLayout := VkLayout.undefined,
          finalLayout := VkLayout.shaderReadOnlyOptimal, loadOp := LoadOp.clear },
        { formatId := fmtR16G16B16A16Sfloat, initialLayout := VkLayout.undefined,
          finalLayout := VkLayout.shaderReadOnlyOptimal, loadOp := LoadOp.clear } ],
    subpasses :=
      [ { colorRefs :=
            [ { attachment := 1, layout := VkLayout.colorAttachmentOptimal },
              { attachment := 2, layout := VkLayout.colorAttachmentOptimal },
              { attachment := 3, layout := VkLayout.colorAttachmentOptimal } ],
          inputRefs := [],
          depthRef := some { attachment := 0, layout := VkLayout.depthStencilAttachmentOptimal } },
        { colorRefs := [ { attachment := 4, layout := VkLayout.colorAttachmentOptimal } ],
          inputRefs :=
            [ { attachment := 1, layout := VkLayout.shaderReadOnlyOptimal },
              { attachment := 2, layout := VkLayout.shaderReadOnlyOptimal },
              { attachment := 3, layout := VkLayout.shaderReadOnlyOptimal },
              { attachment := 0, layout := VkLayout.depthStencilReadOnlyOptimal } ],
          depthRef := some { attachment := 0, layout := VkLayout.depthStencilReadOnlyOptimal } } ],
    dependencies :=
      [ { srcSubpass := none, dstSubpass := some 0,
          srcStageMask := stageBottomOfPipe,
          dstStageMask := stageColorAttachmentOutput ||| stageEarlyFragmentTests ||| stageLateFragmentTests,
          srcAccessMask := 0,
          dstAccessMask := accessColorAttachmentRead ||| accessColorAttachmentWrite |||
            accessDepthStencilAttachmentRead ||| accessDepthStencilAttachmentWrite },
        { srcSubpass := some 0, dstSubpass := some 1,
          srcStageMask := stageColorAttachmentOutput ||| stageLateFragmentTests,
          dstStageMask := stageFragmentShader ||| stageColorAttachmentOutput ||| stageEarlyFragmentTests,
          srcAccessMask := accessColorAttachmentWrite ||| accessDepthStencilAttachmentWrite,
          dstAccessMask := accessInputAttachmentRead ||| accessColorAttachmentRead |||
            accessColorAttachmentWrite ||| accessDepthStencilAttachmentRead },
        { srcSubpass := some 1, dstSubpass := none,
          srcStageMask := stageColorAttachmentOutput,
          dstStageMask := stageFragmentShader ||| stageColorAttachmentOutput,
          srcAccessMask := accessColorAttachmentWrite,
          dstAccessMask := accessShaderRead ||| accessColorAttachmentRead ||| accessColorAttachmentWrite } ] }

/-- Does subpass `sp` write attachment `a` as a color attachment? -/
def SubpassDesc.writesColor (sp : SubpassDesc) (a : ℕ) : Bool :=
  sp.colorRefs.any (fun r => r.attachment == a)

/-- Does subpass `sp` write attachment `a` as the depth-stencil attachment
(with a writable layout)? -/
def SubpassDesc.writesDepth (sp : SubpassDesc) (a : ℕ) : Bool :=
  match sp.depthRef with
  | some r => r.attachment == a && r.layout == VkLayout.depthStencilAttachmentOptimal
  | none => false

/-- A dependency from subpass `src` to subpass `dst` covers an
input-attachment read of an attachment last written as a color attachment
when its source masks include the color-attachment-output stage and
color-attachment-write access, and its destination masks include the
fragment-shader stage and input-attachment-read access.  For an attachment
last written as the depth attachment, the source masks must include the
late-fragment-tests stage and depth-stencil-attachment-write access
(depth writes are complete and available after late fragment tests). -/
def SubpassDependency.coversInputRead (d : SubpassDependency)
    (src dst : ℕ) (depthWrite : Bool) : Bool :=
  d.srcSubpass == some src && d.dstSubpass == some dst &&
  maskCovers d.srcStageMask
    (if depthWrite then stageLateFragmentTests else stageColorAttachmentOutput) &&
  maskCovers d.srcAccessMask
    (if depthWrite then accessDepthStencilAttachmentWrite else accessColorAttachmentWrite) &&
  maskCovers d.dstStageMask stageFragmentShader &&
  maskCovers d.dstAccessMask accessInputAttachmentRead

/-- Every input-attachment read of subpass `dst` of `rp` that reads an
attachment written by subpass `src` is covered by a declared dependency
with matching masks, and every such attachment was indeed written by
subpass `src`. -/
def RenderPass.inputReadsCoveredBy (rp : RenderPass) (src dst : ℕ) : Bool :=
  match rp.subpasses[src]?, rp.subpasses[dst]? with
  | some spSrc, some spDst =>
      spDst.inputRefs.all (fun r =>
        (spSrc.writesColor r.attachment || spSrc.writesDepth r.attachment) &&
        rp.dependencies.any (fun d =>
          d.coversInputRead src dst (spSrc.writesDepth r.attachment)))
  | _, _ => false

/-! ## Uniform blob allocator

`ALL_UNIFORM_BLOB_SIZE` and the allocation sequence are from
deferred_renderer.h (lines 54, 111-119, 614-633). -/

def ALL_UNIFORM_BLOB_SIZE : ℕ := 64 * 1024

/-- Round `x` up to the next multiple of `a`. -/
def alignUp (x a : ℕ) : ℕ := (x + a - 1) / a * a

/-- Modelled from the spec: `rj::helper_functions::UniformBlob` (declared
in a header that is not under src/; only its uses appear in
deferred_renderer.h).  A single fixed-capacity byte arena; the alignment
is set from the device's `minUniformBufferOffsetAlignment` at renderer
construction (deferred_renderer.h:118), the capacity is the template
argument `ALL_UNIFORM_BLOB_SIZE` (deferred_renderer.h:173), and `alloc`
hands out sub-regions at offsets rounded up to the alignment. -/
structure UniformBlob where
  alignment : ℕ
  capacity : ℕ
  nextOffset : ℕ
deriving DecidableEq, Repr

/-- Modelled from the spec: `UniformBlob::alloc(size)` returns the next
sub-allocation's offset, aligned up to the configured minimum alignment,
and advances the internal cursor past the allocated region. -/
def UniformBlob.alloc (b : UniformBlob) (size : ℕ) : ℕ × UniformBlob :=
  let o := alignUp b.nextOffset b.alignment
  (o, { b with nextOffset := o + size })

/-- The member `m_allUniformHostData`, freshly constructed with the device
alignment. -/
def allUniformHostData (alignment : ℕ) : UniformBlob :=
  { alignment := alignment, capacity := ALL_UNIFORM_BLOB_SIZE, nextOffset := 0 }

/-- Run a sequence of allocation requests, returning the
(offset, size) region of each. -/
def allocRegions (b : UniformBlob) : List ℕ → List (ℕ × ℕ)
  | [] => []
  | s :: rest => ((b.alloc s).1, s) :: allocRegions (b.alloc s).2 rest

/-! ## Environment prefiltering (`createEnvPrefilterCommandBuffer`)

deferred_renderer.h:1594-1686.  The command buffer is recorded only when
at least one irradiance map is not cached; it then contains the diffuse
prefilter pass followed by one specular prefilter pass per mip level.
Roughness is accumulated in steps of `1/(mipLevels-1)` exactly as the
C++ loop does; floats are modelled as rationals. -/

inductive PrefilterTarget where
  | diffuse
  | specularLevel (level : ℕ)
deriving DecidableEq, Repr

structure PrefilterDraw where
  target : PrefilterTarget
  renderAreaExtent : ℕ × ℕ
  viewportExtent : ℕ × ℕ
  scissorExtent : ℕ × ℕ
  pushRoughness : Option ℚ
deriving DecidableEq, Repr

/-- The diffuse irradiance pass: one render pass into the diffuse map's
framebuffer at `DIFF_IRRADIANCE_MAP_SIZE` resolution, no push constant. -/
def diffusePrefilterDraw (diffSize : ℕ) : PrefilterDraw :=
  { target := PrefilterTarget.diffuse,
    renderAreaExtent := (diffSize, diffSize),
    viewportExtent := (diffSize, diffSize),
    scissorExtent := (diffSize, diffSize),
    pushRoughness := none }

/-- The specular prefilter loop (deferred_renderer.h:1653-1680): one
render pass per remaining mip level; `faceWidth = SPEC_IRRADIANCE_MAP_SIZE
/ (1 << level)` and `roughness += roughnessDelta` after each level. -/
def specPrefilterLoop (specSize : ℕ) (delta : ℚ) :
    ℕ → ℕ → ℚ → List PrefilterDraw
  | 0, _, _ => []
  | n + 1, level, roughness =>
      { target := PrefilterTarget.specularLevel level,
        renderAreaExtent := (specSize / 2 ^ level, specSize / 2 ^ level),
        viewportExtent := (specSize / 2 ^ level, specSize / 2 ^ level),
        scissorExtent := (specSize / 2 ^ level, specSize / 2 ^ level),
        pushRoughness := some roughness } ::
      specPrefilterLoop specSize delta n (level + 1) (roughness + delta)

/-- Embedding of `createEnvPrefilterCommandBuffer`: `none` when the early
return fires (both maps cached, nothing recorded), otherwise the recorded
draw list — the diffuse pass and all specular mip passes, regardless of
which individual map was cached. -/
def createEnvPrefilterCommandBuffer (diffMapReady specMapReady : Bool)
    (diffSize specSize mipLevels : ℕ) : Option (List PrefilterDraw) :=
  if diffMapReady && specMapReady then none
  else
    some (diffusePrefilterDraw diffSize ::
      specPrefilterLoop specSize (1 / ((mipLevels - 1 : ℕ) : ℚ)) mipLevels 0 0)

/-! ## Precompute orchestration (`run`)

`DeferredRenderer::run` (deferred_renderer.h:287-294) is
`initVulkan(); prefilterEnvironmentAndComputeBrdfLut(); mainLoop();
savePrecomputationResults();`.  The trace of cache-relevant events is
modelled as a list. -/

inductive Artifact where
  | brdfLut
  | diffuseIrradiance
  | specularIrradiance
deriving DecidableEq, Repr

inductive RunEvent where
  | submitBrdfCompute
  | submitEnvPrefilter (draws : List PrefilterDraw)
  | mainLoop
  | saveArtifact (a : Artifact)
deriving DecidableEq, Repr

/-- The cache flags after initialisation.  The BRDF flags are from
`createComputeResources` (deferred_renderer.h:427-473): ready iff the
cache file exists, save-after-run iff it does not.  The skybox flags are
modelled from the spec: `VSkybox::load` is not under src/; per the spec
each irradiance map is loaded and marked ready when its cache file
exists, and marked for computation and post-computation disk save when
it does not. -/
structure PrecomputeFlags where
  bakedBrdfReady : Bool
  shouldSaveBakedBrdf : Bool
  diffMapReady : Bool
  shouldSaveDiffMap : Bool
  specMapReady : Bool
  shouldSaveSpecMap : Bool
deriving DecidableEq, Repr

def initFlags (brdfCacheExists diffCacheExists specCacheExists : Bool) : PrecomputeFlags :=
  { bakedBrdfReady := brdfCacheExists, shouldSaveBakedBrdf := !brdfCacheExists,
    diffMapReady := diffCacheExists, shouldSaveDiffMap := !diffCacheExists,
    specMapReady := specCacheExists, shouldSaveSpecMap := !specCacheExists }

/-- Embedding of `prefilterEnvironmentAndComputeBrdfLut`
(deferred_renderer.h:1904-1974): the BRDF compute buffer is submitted iff
the LUT is not ready; the env prefilter buffer is submitted iff at least
one irradiance map is not ready. -/
def prefilterEnvironmentAndComputeBrdfLut (f : PrecomputeFlags)
    (diffSize specSize mipLevels : ℕ) : List RunEvent :=
  (if !f.bakedBrdfReady then [RunEvent.submitBrdfCompute] else []) ++
  (if !f.diffMapReady || !f.specMapReady then
    [RunEvent.submitEnvPrefilter
      ((createEnvPrefilterCommandBuffer f.diffMapReady f.specMapReady
          diffSize specSize mipLevels).getD [])]
  else [])

/-- Embedding of `savePrecomputationResults`
(deferred_renderer.h:1976-2102): each artifact flagged for saving is read
back and serialized, in the order BRDF LUT, diffuse, specular. -/
def savePrecomputationResults (f : PrecomputeFlags) : List RunEvent :=
  (if f.shouldSaveBakedBrdf then [RunEvent.saveArtifact Artifact.brdfLut] else []) ++
  (if f.shouldSaveDiffMap then [RunEvent.saveArtifact Artifact.diffuseIrradiance] else []) ++
  (if f.shouldSaveSpecMap then [RunEvent.saveArtifact Artifact.specularIrradiance] else [])

/-- Embedding of `DeferredRenderer::run`, as the trace of precompute
submissions, the steady-state main loop, and the deferred disk saves. -/
def run (brdfCacheExists diffCacheExists specCacheExists : Bool)
    (diffSize specSize mipLevels : ℕ) : List RunEvent :=
  prefilterEnvironmentAndComputeBrdfLut
      (initFlags brdfCacheExists diffCacheExists specCacheExists)
      diffSize specSize mipLevels ++
    [RunEvent.mainLoop] ++
    savePrecomputationResults (initFlags brdfCacheExists diffCacheExists specCacheExists)

/-- Extract the draw lists of all env-prefilter submissions in a trace. -/
def envPrefilterSubmissions (evs : List RunEvent) : List (List PrefilterDraw) :=
  evs.filterMap (fun e =>
    match e with
    | RunEvent.submitEnvPrefilter ds => some ds
    | _ => none)

/-! ## Colour attachment resources (`createColorAttachmentResources`)

deferred_renderer.h:501-569.  Every image is created at the swapchain
extent. -/

structure ImageResource where
  formatId : ℕ
  width : ℕ
  height : ℕ
deriving DecidableEq, Repr

def gbufferFormats : List ℕ :=
  [fmtR32G32B32A32Sfloat, fmtR32G32B32A32Sfloat, fmtR8G8B8A8Unorm]

def gbufferImages (extent : ℕ × ℕ) : List ImageResource :=
  gbufferFormats.map (fun f =>
    { formatId := f, width := extent.1, height := extent.2 })

def lightingResultImage (extent : ℕ × ℕ) : ImageResource :=
  { formatId := fmtR16G16B16A16Sfloat, width := extent.1, height := extent.2 }

def postEffectImageFormats : List ℕ :=
  [fmtR16G16B16A16Sfloat, fmtR16G16B16A16Sfloat]

def postEffectImages (extent : ℕ × ℕ) : List ImageResource :=
  postEffectImageFormats.map (fun f =>
    { formatId := f, width := extent.1, height := extent.2 })

/-! ## Bloom render passes, framebuffers and pipelines

`createBloomRenderPasses` (deferred_renderer.h:878-914),
`createFramebuffers` bloom part (736-739), `createBloomPipelines`
(1255-1326), `createBloomDescriptorSets` (1498-1534). -/

/-- Bloom render pass 1 ("brightness and blur passes: will clear
framebuffer").  The load operation is the builder's default, which the
source comment documents as clearing. -/
def bloomRenderPass0 : RenderPass :=
  { attachments :=
      [ { formatId := fmtR16G16B16A16Sfloat, initialLayout := VkLayout.undefined,
          finalLayout := VkLayout.shaderReadOnlyOptimal, loadOp := LoadOp.clear } ],
    subpasses :=
      [ { colorRefs := [ { attachment := 0, layout := VkLayout.colorAttachmentOptimal } ],
          inputRefs := [], depthRef := none } ],
    dependencies :=
      [ { srcSubpass := none, dstSubpass := some 0,
          srcStageMask := stageColorAttachmentOutput,
          dstStageMask := stageFragmentShader,
          srcAccessMask := accessColorAttachmentRead ||| accessColorAttachmentWrite,
          dstAccessMask := accessShaderRead ||| accessShaderWrite } ] }

/-- Bloom render pass 2 ("Merge pass: will not clear framebuffer"):
`VK_ATTACHMENT_LOAD_OP_LOAD` is passed explicitly
(deferred_renderer.h:901-902). -/
def bloomRenderPass1 : RenderPass :=
  { attachments :=
      [ { formatId := fmtR16G16B16A16Sfloat,
          initialLayout := VkLayout.shaderReadOnlyOptimal,
          finalLayout := VkLayout.shaderReadOnlyOptimal, loadOp := LoadOp.load } ],
    subpasses :=
      [ { colorRefs := [ { attachment := 0, layout := VkLayout.colorAttachmentOptimal } ],
          inputRefs := [], depthRef := none } ],
    dependencies :=
      [ { srcSubpass := none, dstSubpass := some 0,
          srcStageMask := stageColorAttachmentOutput,
          dstStageMask := stageFragmentShader,
          srcAccessMask := accessColorAttachmentRead ||| accessColorAttachmentWrite,
          dstAccessMask := accessShaderRead ||| accessShaderWrite } ] }

/-- The image attached to each of the three post-effect framebuffers. -/
inductive BloomImage where
  | postEffectImage (i : ℕ)
  | lightingResult
deriving DecidableEq, Repr

/-- Embedding of `m_postEffectFramebuffers` (deferred_renderer.h:736-739):
render-pass index into `m_bloomRenderPasses` and the attached image. -/
def postEffectFramebuffers : List (ℕ × BloomImage) :=
  [ (0, BloomImage.postEffectImage 0),
    (0, BloomImage.postEffectImage 1),
    (1, BloomImage.lightingResult) ]

/-- Embedding of `m_bloomDescriptorSets` (deferred_renderer.h:1498-1534): the single
combined-image-sampler each set binds at binding 0. -/
def bloomDescriptorSetInput : List BloomImage :=
  [ BloomImage.lightingResult,
    BloomImage.postEffectImage 0,
    BloomImage.postEffectImage 1 ]

inductive BlendFactor where
  | zero
  | one
deriving DecidableEq, Repr

inductive BlendOp where
  | add
deriving DecidableEq, Repr

structure ColorBlendAttachment where
  blendEnable : Bool
  srcColorBlendFactor : BlendFactor
  dstColorBlendFactor : BlendFactor
  colorBlendOp : BlendOp
deriving DecidableEq, Repr

/-- The blend attachment state of the bloom merge pipeline
(`m_bloomPipelines[2]`), from
`graphicsPipeLineAddColorBlendAttachment(VK_TRUE, VK_BLEND_FACTOR_ONE,
VK_BLEND_FACTOR_ONE, VK_BLEND_OP_ADD)` (deferred_renderer.h:1323). -/
def mergeColorBlendAttachment : ColorBlendAttachment :=
  { blendEnable := true,
    srcColorBlendFactor := BlendFactor.one,
    dstColorBlendFactor := BlendFactor.one,
    colorBlendOp := BlendOp.add }

def blendFactorValue (f : BlendFactor) : ℚ :=
  match f with
  | BlendFactor.zero => 0
  | BlendFactor.one => 1

/-- Per-pixel colour result of fixed-function blending: with blending
enabled, `op (srcFactor * src) (dstFactor * dst)`; with blending
disabled, the source value replaces the destination. -/
def blendEval (bs : ColorBlendAttachment) (src dst : ℚ) : ℚ :=
  if bs.blendEnable then
    match bs.colorBlendOp with
    | BlendOp.add =>
        blendFactorValue bs.srcColorBlendFactor * src +
        blendFactorValue bs.dstColorBlendFactor * dst
  else src

/-! ## Post-effect command buffer (`createPostEffectCommandBuffer`)

deferred_renderer.h:1775-1861. -/

/-- One render pass recorded into the post-effect command buffer:
indices into `m_bloomRenderPasses`, `m_postEffectFramebuffers`,
`m_bloomPipelines` and `m_bloomDescriptorSets`, the optional
`isHorizontal` push constant, and the clear-value count. -/
structure PostEffectPass where
  renderPassIdx : ℕ
  framebufferIdx : ℕ
  pipelineIdx : ℕ
  descriptorSetIdx : ℕ
  pushIsHorizontal : Option Bool
  clearValueCount : ℕ
deriving DecidableEq, Repr

/-- The literal loop bound of the Gaussian-blur loop
(`for (uint32_t i = 0; i < 5; ++i)`, deferred_renderer.h:1807). -/
def gaussianBlurIterations : ℕ := 5

/-- Embedding of `createPostEffectCommandBuffer`: the brightness-mask
pass, `gaussianBlurIterations` horizontal/vertical blur pairs ping-ponging
between the two post-effect framebuffers, then the merge pass into the
lighting-result framebuffer with no clear. -/
def postEffectPasses : List PostEffectPass :=
  { renderPassIdx := 0, framebufferIdx := 0, pipelineIdx := 0,
    descriptorSetIdx := 0, pushIsHorizontal := none, clearValueCount := 1 } ::
  ((List.range gaussianBlurIterations).flatMap (fun _ =>
    [ { renderPassIdx := 0, framebufferIdx := 1, pipelineIdx := 1,
        descriptorSetIdx := 1, pushIsHorizontal := some true, clearValueCount := 1 },
      { renderPassIdx := 0, framebufferIdx := 0, pipelineIdx := 1,
        descriptorSetIdx := 2, pushIsHorizontal := some false, clearValueCount := 1 } ]) ++
  [ { renderPassIdx := 1, framebufferIdx := 2, pipelineIdx := 2,
      descriptorSetIdx := 1, pushIsHorizontal := none, clearValueCount := 0 } ])

/-! ## Static-mesh (geometry pass) descriptor sets

`createStaticMeshDescriptorSet` (deferred_renderer.h:1411-1452). -/

/-- The value `std::numeric_limits<uint32_t>::max()`, the invalid image name that
marks an absent AO map. -/
def invalidName : ℕ := 2 ^ 32 - 1

/-- The texture fields of one `VModel` used by the geometry-pass
descriptor set.  `aoMapImage = invalidName` encodes a model with no
ambient-occlusion map. -/
structure VModelTextures where
  albedoMapView : ℕ
  albedoMapSampler : ℕ
  normalMapView : ℕ
  normalMapSampler : ℕ
  roughnessMapView : ℕ
  roughnessMapSampler : ℕ
  metalnessMapView : ℕ
  metalnessMapSampler : ℕ
  aoMapImage : ℕ
  aoMapView : ℕ
  aoMapSampler : ℕ
deriving DecidableEq, Repr

structure ImageDescriptorWrite where
  binding : ℕ
  view : ℕ
  sampler : ℕ
deriving DecidableEq, Repr

/-- The combined-image-sampler writes of one model's geometry-pass
descriptor set (bindings 2-6).  Binding 6 falls back to the albedo map
when `aoMap.image` is the invalid name (deferred_renderer.h:1446-1448). -/
def staticMeshImageWrites (m : VModelTextures) : List ImageDescriptorWrite :=
  [ { binding := 2, view := m.albedoMapView, sampler := m.albedoMapSampler },
    { binding := 3, view := m.normalMapView, sampler := m.normalMapSampler },
    { binding := 4, view := m.roughnessMapView, sampler := m.roughnessMapSampler },
    { binding := 5, view := m.metalnessMapView, sampler := m.metalnessMapSampler },
    { binding := 6,
      view := if m.aoMapImage = invalidName then m.albedoMapView else m.aoMapView,
      sampler := if m.aoMapImage = invalidName then m.albedoMapSampler else m.aoMapSampler } ]

/-! ## Uniform-buffer descriptor writes

`createUniformBuffers` (deferred_renderer.h:614-633) performs the
allocations in order: cube-map camera, transformation matrices, lighting
info, display info, then one per-model structure per model.  The
descriptor writes are from `createSpecEnvPrefilterDescriptorSet` (1371-
1384), `createSkyboxDescriptorSet` (1393-1409),
`createStaticMeshDescriptorSet` (1420-1427),
`createLightingPassDescriptorSets` (1461-1464) and
`createFinalOutputPassDescriptorSets` (1536-1541). -/

/-- Value of `sizeof(CubeMapCameraUniformBuffer)`: `glm::mat4 V[6]` + `glm::mat4 P`. -/
def sizeofCubeMapCameraUniformBuffer : ℕ := 7 * 64

/-- Value of `sizeof(TransMatsUniformBuffer)`: one `glm::mat4 VP`. -/
def sizeofTransMatsUniformBuffer : ℕ := 64

/-- Constant `NUM_LIGHTS` (deferred_renderer.h:55). -/
def NUM_LIGHTS : ℕ := 2

/-- Value of `sizeof(LightingPassUniformBuffer)`: `glm::vec4 eyePos` +
`PointLight pointLights[NUM_LIGHTS]` where `sizeof(PointLight)` is
`vec4 + vec3 + float` = 32 bytes. -/
def sizeofLightingPassUniformBuffer : ℕ := 16 + NUM_LIGHTS * 32

/-- Value of `sizeof(DisplayInfoUniformBuffer)`: one `int` display mode. -/
def sizeofDisplayInfoUniformBuffer : ℕ := 4

/-- The offsets `m_allUniformHostData.offsetOf(...)` reports for each
sub-allocation of `createUniformBuffers`:
`perModelSize` is `sizeof(PerModelUniformBuffer)` (declared outside
src/), `numModels` the size of `m_models`. -/
structure UniformOffsets where
  cubeViews : ℕ
  transMats : ℕ
  lightInfo : ℕ
  displayInfo : ℕ
  perModel : List ℕ
deriving DecidableEq, Repr

def uniformOffsets (align perModelSize numModels : ℕ) : UniformOffsets :=
  let b0 := allUniformHostData align
  let a1 := b0.alloc sizeofCubeMapCameraUniformBuffer
  let a2 := a1.2.alloc sizeofTransMatsUniformBuffer
  let a3 := a2.2.alloc sizeofLightingPassUniformBuffer
  let a4 := a3.2.alloc sizeofDisplayInfoUniformBuffer
  { cubeViews := a1.1, transMats := a2.1, lightInfo := a3.1, displayInfo := a4.1,
    perModel :=
      (allocRegions a4.2 (List.replicate numModels perModelSize)).map Prod.fst }

/-- The descriptor sets that receive uniform-buffer writes. -/
inductive DescriptorSetName where
  | specEnvPrefilterSet
  | skyboxSet
  | geomSet (model : ℕ)
  | lightingSet
  | finalOutputSet
deriving DecidableEq, Repr

structure BufferDescriptorWrite where
  set : DescriptorSetName
  binding : ℕ
  offset : ℕ
  sizeInBytes : ℕ
deriving DecidableEq, Repr

/-- Every uniform-buffer descriptor write the renderer performs, with
the offset and byte size each one passes to the API.  The skybox set's
binding 0 write is translated verbatim from deferred_renderer.h:1396-1398:
it uses the offset of `m_uTransMats` but `sizeof(DisplayInfoUniformBuffer)`
as the size. -/
def uniformBufferWrites (align perModelSize numModels : ℕ) :
    List BufferDescriptorWrite :=
  let offs := uniformOffsets align perModelSize numModels
  { set := DescriptorSetName.specEnvPrefilterSet, binding := 0,
    offset := offs.cubeViews, sizeInBytes := sizeofCubeMapCameraUniformBuffer } ::
  { set := DescriptorSetName.skyboxSet, binding := 0,
    offset := offs.transMats, sizeInBytes := sizeofDisplayInfoUniformBuffer } ::
  ((List.range numModels).flatMap (fun i =>
    [ { set := DescriptorSetName.geomSet i, binding := 0,
        offset := offs.transMats, sizeInBytes := sizeofTransMatsUniformBuffer },
      { set := DescriptorSetName.geomSet i, binding := 1,
        offset := offs.perModel.getD i 0, sizeInBytes := perModelSize } ]) ++
  [ { set := DescriptorSetName.lightingSet, binding := 0,
      offset := offs.lightInfo, sizeInBytes := sizeofLightingPassUniformBuffer },
    { set := DescriptorSetName.finalOutputSet, binding := 5,
      offset := offs.displayInfo, sizeInBytes := sizeofDisplayInfoUniformBuffer } ])

/-! ## Helper lemmas -/

theorem alignUp_dvd (x a : ℕ) : a ∣ alignUp x a :=
  dvd_mul_left a ((x + a - 1) / a)

theorem le_alignUp (x : ℕ) {a : ℕ} (h : 0 < a) : x ≤ alignUp x a := by
  have h1 := Nat.div_add_mod (x + a - 1) a
  have h2 := Nat.mod_lt (x + a - 1) h
  unfold alignUp
  rw [Nat.mul_comm]
  omega

/-- Every region handed out from cursor `start` is aligned, lies at or
after `start`, and the regions are pairwise disjoint in allocation
order. -/
theorem allocRegions_aligned_disjoint (align cap : ℕ) (h : 0 < align) :
    ∀ (sizes : List ℕ) (start : ℕ),
      (∀ r ∈ allocRegions ⟨align, cap, start⟩ sizes, align ∣ r.1 ∧ start ≤ r.1) ∧
      (allocRegions ⟨align, cap, start⟩ sizes).Pairwise
        (fun p q => p.1 + p.2 ≤ q.1) := by
  intro sizes
  induction sizes with
  | nil => intro start; simp [allocRegions]
  | cons s rest ih =>
      intro start
      have hrec := ih (alignUp start align + s)
      constructor
      · intro r hr
        rw [allocRegions] at hr
        simp only [UniformBlob.alloc, List.mem_cons] at hr
        rcases hr with hr | hr
        · subst hr
          exact ⟨alignUp_dvd start align, le_alignUp start h⟩
        · have := hrec.1 r hr
          exact ⟨this.1, le_trans (le_trans (le_alignUp start h)
            (Nat.le_add_right _ s)) this.2⟩
      · rw [allocRegions]
        simp only [UniformBlob.alloc]
        refine List.Pairwise.cons ?_ hrec.2
        intro q hq
        exact le_trans (le_of_eq rfl) ((hrec.1 q hq).2)

/-- Closed form of the specular prefilter loop: starting at `level` with
roughness `r`, the draw for iteration `i` targets mip `level + i` at
extent `s / 2 ^ (level + i)` with roughness `r + i * d`. -/
theorem specPrefilterLoop_eq (s : ℕ) (d : ℚ) :
    ∀ (n level : ℕ) (r : ℚ),
      specPrefilterLoop s d n level r =
        (List.range n).map (fun i =>
          { target := PrefilterTarget.specularLevel (level + i),
            renderAreaExtent := (s / 2 ^ (level + i), s / 2 ^ (level + i)),
            viewportExtent := (s / 2 ^ (level + i), s / 2 ^ (level + i)),
            scissorExtent := (s / 2 ^ (level + i), s / 2 ^ (level + i)),
            pushRoughness := some (r + i * d) }) := by
  intro n
  induction n with
  | zero => intro level r; simp [specPrefilterLoop]
  | succ n ih =>
      intro level r
      rw [specPrefilterLoop, ih (level + 1) (r + d),
        List.range_succ_eq_map, List.map_cons, List.map_map]
      refine List.cons_eq_cons.mpr ⟨?_, ?_⟩
      · simp
      · refine List.map_congr_left ?_
        intro i _
        have hn : level + 1 + i = level + (i + 1) := by omega
        simp only [Function.comp_apply, PrefilterDraw.mk.injEq, hn, Prod.mk.injEq,
          Option.some.injEq, and_true, true_and, and_self]
        push_cast
        ring

/-! ## Theorems -/

/-- C1: in every `drawFrame` iteration that successfully acquires a swapchain
image (result `VK_SUCCESS` or `VK_SUBOPTIMAL_KHR`), exactly three batches
are submitted to the graphics queue in order, forming a linear semaphore
chain — geometry+lighting waits on image-available and signals
geometry-and-lighting-complete, post-effect waits on that and signals
post-effect, the present batch for the acquired image waits on post-effect
and signals final-output-finished — and the present call waits on
final-output-finished. -/
theorem drawFrame_semaphore_chain (a : VkResult) (i : ℕ) (p : VkResult)
    (h : a = VkResult.success ∨ a = VkResult.suboptimalKHR) :
    (drawFrame a i p).submissions =
      [ { cmdBufs := [CmdBuf.geomAndLighting],
          waitSemaphores := [Semaphore.imageAvailable],
          waitStageMasks := [stageColorAttachmentOutput],
          signalSemaphores := [Semaphore.geomAndLightingComplete] },
        { cmdBufs := [CmdBuf.postEffect],
          waitSemaphores := [Semaphore.geomAndLightingComplete],
          waitStageMasks := [stageColorAttachmentOutput],
          signalSemaphores := [Semaphore.postEffect] },
        { cmdBufs := [CmdBuf.present i],
          waitSemaphores := [Semaphore.postEffect],
          waitStageMasks := [stageColorAttachmentOutput],
          signalSemaphores := [Semaphore.finalOutputFinished] } ] ∧
    (drawFrame a i p).presented = some ([Semaphore.finalOutputFinished], i) := by
  rcases h with h | h <;> subst h <;> cases p <;> exact ⟨rfl, rfl⟩

/-- Witness for C1 at a concrete input. -/
theorem drawFrame_semaphore_chain_witness :
    (drawFrame VkResult.success 0 VkResult.success).submissions =
      [ { cmdBufs := [CmdBuf.geomAndLighting],
          waitSemaphores := [Semaphore.imageAvailable],
          waitStageMasks := [stageColorAttachmentOutput],
          signalSemaphores := [Semaphore.geomAndLightingComplete] },
        { cmdBufs := [CmdBuf.postEffect],
          waitSemaphores := [Semaphore.geomAndLightingComplete],
          waitStageMasks := [stageColorAttachmentOutput],
          signalSemaphores := [Semaphore.postEffect] },
        { cmdBufs := [CmdBuf.present 0],
          waitSemaphores := [Semaphore.postEffect],
          waitStageMasks := [stageColorAttachmentOutput],
          signalSemaphores := [Semaphore.finalOutputFinished] } ] ∧
    (drawFrame VkResult.success 0 VkResult.success).presented =
      some ([Semaphore.finalOutputFinished], 0) :=
  drawFrame_semaphore_chain VkResult.success 0 VkResult.success (Or.inl rfl)

/-- C2: in the geometry+lighting render pass, every attachment read by the
lighting subpass (subpass 1) via an input-attachment reference — the three
G-buffer attachments and the depth attachment — was written by the geometry
subpass (subpass 0) and is covered by a declared subpass dependency from
subpass 0 to subpass 1 whose source stage/access masks cover the color and
depth-stencil attachment writes and whose destination stage/access masks
cover the input-attachment reads. -/
theorem geomAndLightRenderPass_input_reads_covered :
    geomAndLightRenderPass.inputReadsCoveredBy 0 1 = true := by decide

/-- C3 counterexample: when acquisition returns `VK_SUBOPTIMAL_KHR`, the
code does not recreate the swapchain and does not skip the frame — all
three batches are submitted — contradicting the claim that a "suboptimal"
acquisition result is handled by resource recreation and frame skip. -/
theorem drawFrame_suboptimal_acquire_not_skipped :
    (drawFrame VkResult.suboptimalKHR 0 VkResult.success).recreatedSwapChain = false ∧
    (drawFrame VkResult.suboptimalKHR 0 VkResult.success).submissions ≠ [] ∧
    (drawFrame VkResult.suboptimalKHR 0 VkResult.success).submissions.length = 3 := by
  refine ⟨rfl, ?_, rfl⟩
  decide

/-- C3 (amended): at acquisition, only `VK_ERROR_OUT_OF_DATE_KHR` triggers
swapchain recreation and skips the frame (no batch submitted); a
`VK_SUBOPTIMAL_KHR` acquisition proceeds with the frame as if successful;
any other non-success acquisition result raises a fatal runtime error with
no batch submitted.  At presentation, `VK_ERROR_OUT_OF_DATE_KHR` and
`VK_SUBOPTIMAL_KHR` are the sole recoverable results, handled by swapchain
recreation; any other non-success presentation result raises a fatal
runtime error; a successful present ends the frame normally. -/
theorem drawFrame_error_handling (a p : VkResult) (i : ℕ) :
    (a = VkResult.errorOutOfDateKHR →
      drawFrame a i p =
        { recreatedSwapChain := true, submissions := [], presented := none,
          fatalError := none }) ∧
    (a = VkResult.otherError →
      (drawFrame a i p).fatalError = some "failed to acquire swap chain image!" ∧
      (drawFrame a i p).submissions = []) ∧
    ((a = VkResult.success ∨ a = VkResult.suboptimalKHR) →
      (drawFrame a i p).submissions.length = 3 ∧
      ((p = VkResult.errorOutOfDateKHR ∨ p = VkResult.suboptimalKHR) →
        (drawFrame a i p).recreatedSwapChain = true ∧
        (drawFrame a i p).fatalError = none) ∧
      (p = VkResult.otherError →
        (drawFrame a i p).fatalError = some "failed to present swap chain image!") ∧
      (p = VkResult.success →
        (drawFrame a i p).recreatedSwapChain = false ∧
        (drawFrame a i p).fatalError = none)) := by
  cases a <;> cases p <;> simp [drawFrame]

/-- Witness for C3 (amended) at concrete inputs, discharging each
hypothesis. -/
theorem drawFrame_error_handling_witness :
    (drawFrame VkResult.errorOutOfDateKHR 0 VkResult.success =
      { recreatedSwapChain := true, submissions := [], presented := none,
        fatalError := none }) ∧
    ((drawFrame VkResult.otherError 0 VkResult.success).fatalError =
      some "failed to acquire swap chain image!" ∧
     (drawFrame VkResult.otherError 0 VkResult.success).submissions = []) ∧
    ((drawFrame VkResult.success 0 VkResult.suboptimalKHR).recreatedSwapChain = true ∧
     (drawFrame VkResult.success 0 VkResult.suboptimalKHR).fatalError = none) ∧
    ((drawFrame VkResult.success 0 VkResult.otherError).fatalError =
      some "failed to present swap chain image!") ∧
    ((drawFrame VkResult.success 0 VkResult.success).recreatedSwapChain = false ∧
     (drawFrame VkResult.success 0 VkResult.success).fatalError = none) :=
  ⟨(drawFrame_error_handling VkResult.errorOutOfDateKHR VkResult.success 0).1 rfl,
   (drawFrame_error_handling VkResult.otherError VkResult.success 0).2.1 rfl,
   ((drawFrame_error_handling VkResult.success VkResult.suboptimalKHR 0).2.2
      (Or.inl rfl)).2.1 (Or.inr rfl),
   ((drawFrame_error_handling VkResult.success VkResult.otherError 0).2.2
      (Or.inl rfl)).2.2.1 rfl,
   ((drawFrame_error_handling VkResult.success VkResult.success 0).2.2
      (Or.inl rfl)).2.2.2 rfl⟩

/-- C4: evaluation at the failing input.  With the diffuse irradiance
cache present and the specular cache absent, the run still submits an
env-prefilter command buffer that contains the diffuse prefilter pass —
GPU computation is recorded and submitted for a cached artifact (into a
framebuffer `createFramebuffers` deliberately did not create), against
the per-artifact skip the spec states. -/
theorem envPrefilter_diffuse_pass_submitted_despite_cache :
    (envPrefilterSubmissions (run true true false 32 128 4)).length = 1 ∧
    ((envPrefilterSubmissions (run true true false 32 128 4)).flatten.map
        PrefilterDraw.target).contains PrefilterTarget.diffuse = true ∧
    (RunEvent.saveArtifact Artifact.diffuseIrradiance ∉ run true true false 32 128 4) := by
  decide

/-- Trace normal form of `run`: the BRDF compute buffer is submitted iff
the LUT cache is absent; the env-prefilter buffer is submitted iff at
least one irradiance cache is absent, and then it contains the diffuse
pass and every specular mip pass regardless of which map was cached; the
saves happen after the main loop ends and cover exactly the artifacts
whose cache was absent at startup. -/
theorem run_precompute_trace (brdf diff spec : Bool) (dS sS mips : ℕ) :
    run brdf diff spec dS sS mips =
      (if brdf then [] else [RunEvent.submitBrdfCompute]) ++
      (if diff && spec then []
       else [RunEvent.submitEnvPrefilter
          (diffusePrefilterDraw dS ::
            specPrefilterLoop sS (1 / ((mips - 1 : ℕ) : ℚ)) mips 0 0)]) ++
      [RunEvent.mainLoop] ++
      ((if brdf then [] else [RunEvent.saveArtifact Artifact.brdfLut]) ++
       (if diff then [] else [RunEvent.saveArtifact Artifact.diffuseIrradiance]) ++
       (if spec then [] else [RunEvent.saveArtifact Artifact.specularIrradiance])) := by
  cases brdf <;> cases diff <;> cases spec <;>
    simp [run, prefilterEnvironmentAndComputeBrdfLut, savePrecomputationResults,
      initFlags, createEnvPrefilterCommandBuffer]

/-- C5: every offset handed out by the uniform blob for a sequence of
allocation requests is a multiple of the device minimum
uniform-buffer-offset alignment configured at construction, no two
allocated regions overlap, and the blob's capacity is fixed at
`ALL_UNIFORM_BLOB_SIZE` (64 KiB) at creation. -/
theorem uniformBlob_alloc_aligned_disjoint (align : ℕ) (h : 0 < align)
    (sizes : List ℕ) :
    (allUniformHostData align).capacity = ALL_UNIFORM_BLOB_SIZE ∧
    (∀ r ∈ allocRegions (allUniformHostData align) sizes, align ∣ r.1) ∧
    (allocRegions (allUniformHostData align) sizes).Pairwise
      (fun p q => p.1 + p.2 ≤ q.1) := by
  have hinv := allocRegions_aligned_disjoint align ALL_UNIFORM_BLOB_SIZE h sizes 0
  exact ⟨rfl, fun r hr => (hinv.1 r hr).1, hinv.2⟩

/-- Witness for C5 at the renderer's own allocation sequence (the four
global uniform structures followed by one per-model structure), with a
256-byte device alignment. -/
theorem uniformBlob_alloc_aligned_disjoint_witness :
    (allUniformHostData 256).capacity = ALL_UNIFORM_BLOB_SIZE ∧
    (∀ r ∈ allocRegions (allUniformHostData 256) [448, 64, 80, 4, 64], 256 ∣ r.1) ∧
    (allocRegions (allUniformHostData 256) [448, 64, 80, 4, 64]).Pairwise
      (fun p q => p.1 + p.2 ≤ q.1) :=
  uniformBlob_alloc_aligned_disjoint 256 (by decide) [448, 64, 80, 4, 64]

/-- C6: when the specular irradiance cache is absent and the map has
`mips ≥ 2` mip levels, the env-prefilter command buffer records, after
the diffuse pass, one render pass per mip level `L = 0 .. mips - 1`;
level `L` targets the framebuffer for mip `L` with render area, viewport
and scissor all equal to a square of side
`SPEC_IRRADIANCE_MAP_SIZE / 2 ^ L`, and the push-constant roughness for
level `L` is `L / (mips - 1)`, stepping linearly from 0 at level 0 to 1
at the last level. -/
theorem envPrefilter_specular_mip_chain (dr : Bool) (diffSize specSize mips : ℕ)
    (h : 2 ≤ mips) :
    createEnvPrefilterCommandBuffer dr false diffSize specSize mips =
      some (diffusePrefilterDraw diffSize ::
        (List.range mips).map (fun L =>
          { target := PrefilterTarget.specularLevel L,
            renderAreaExtent := (specSize / 2 ^ L, specSize / 2 ^ L),
            viewportExtent := (specSize / 2 ^ L, specSize / 2 ^ L),
            scissorExtent := (specSize / 2 ^ L, specSize / 2 ^ L),
            pushRoughness := some ((L : ℚ) / ((mips : ℚ) - 1)) })) := by
  have hc : ((mips - 1 : ℕ) : ℚ) = (mips : ℚ) - 1 := by
    push_cast [Nat.cast_sub (by omega : 1 ≤ mips)]
    ring
  unfold createEnvPrefilterCommandBuffer
  rw [Bool.and_false, if_neg (by simp)]
  rw [specPrefilterLoop_eq]
  refine congrArg _ (congrArg _ (List.map_congr_left ?_))
  intro L _
  simp only [Nat.zero_add, PrefilterDraw.mk.injEq, Option.some.injEq, hc,
    and_true, true_and, and_self]
  ring

/-- Witness for C6 at a concrete input (`mips = 3`). -/
theorem envPrefilter_specular_mip_chain_witness :
    createEnvPrefilterCommandBuffer true false 32 128 3 =
      some (diffusePrefilterDraw 32 ::
        (List.range 3).map (fun L =>
          { target := PrefilterTarget.specularLevel L,
            renderAreaExtent := (128 / 2 ^ L, 128 / 2 ^ L),
            viewportExtent := (128 / 2 ^ L, 128 / 2 ^ L),
            scissorExtent := (128 / 2 ^ L, 128 / 2 ^ L),
            pushRoughness := some ((L : ℚ) / ((3 : ℚ) - 1)) })) :=
  envPrefilter_specular_mip_chain true 32 128 3 (by decide)

/-- C7 counterexample: the two post-effect ping-pong buffers are created
at the full swapchain extent, not at half resolution — at extent
1280x720 both buffers measure 1280x720, not 640x360. -/
theorem postEffectImages_full_resolution :
    (postEffectImages (1280, 720)).map (fun im => (im.width, im.height)) =
      [(1280, 720), (1280, 720)] ∧
    ((1280 : ℕ), (720 : ℕ)) ≠ (1280 / 2, 720 / 2) := by decide

/-- C7 (amended): the post-effect command buffer records one
brightness-mask draw (reading the lighting result) into the first
post-effect buffer, then exactly five separable Gaussian-blur
iterations — each a horizontal pass into the second buffer reading the
first, followed by a vertical pass back into the first reading the
second — then one merge draw through the no-clear render pass into the
lighting-result framebuffer, reading the first buffer; the iteration
count is a literal fixed at recording time, and the two ping-pong
buffers are full-resolution (swapchain extent) rather than
half-resolution. -/
theorem postEffect_bloom_structure (w h : ℕ) :
    postEffectPasses =
      [ ⟨0, 0, 0, 0, none, 1⟩,
        ⟨0, 1, 1, 1, some true, 1⟩, ⟨0, 0, 1, 2, some false, 1⟩,
        ⟨0, 1, 1, 1, some true, 1⟩, ⟨0, 0, 1, 2, some false, 1⟩,
        ⟨0, 1, 1, 1, some true, 1⟩, ⟨0, 0, 1, 2, some false, 1⟩,
        ⟨0, 1, 1, 1, some true, 1⟩, ⟨0, 0, 1, 2, some false, 1⟩,
        ⟨0, 1, 1, 1, some true, 1⟩, ⟨0, 0, 1, 2, some false, 1⟩,
        ⟨1, 2, 2, 1, none, 0⟩ ] ∧
    gaussianBlurIterations = 5 ∧
    postEffectFramebuffers =
      [ (0, BloomImage.postEffectImage 0),
        (0, BloomImage.postEffectImage 1),
        (1, BloomImage.lightingResult) ] ∧
    bloomDescriptorSetInput =
      [ BloomImage.lightingResult,
        BloomImage.postEffectImage 0,
        BloomImage.postEffectImage 1 ] ∧
    (postEffectImages (w, h)).map (fun im => (im.width, im.height)) =
      [(w, h), (w, h)] ∧
    (lightingResultImage (w, h)).width = w ∧
    (lightingResultImage (w, h)).height = h := by
  refine ⟨by decide, rfl, rfl, rfl, ?_, rfl, rfl⟩
  simp [postEffectImages, postEffectImageFormats]

/-- C8: the bloom merge pipeline enables additive blending with source
factor one, destination factor one and blend op add, and the merge
render pass loads the existing lighting-result attachment contents
instead of clearing them, so merging a zero-valued bright-pass result
leaves every destination pixel unchanged. -/
theorem bloom_merge_additive_identity :
    mergeColorBlendAttachment.blendEnable = true ∧
    mergeColorBlendAttachment.srcColorBlendFactor = BlendFactor.one ∧
    mergeColorBlendAttachment.dstColorBlendFactor = BlendFactor.one ∧
    mergeColorBlendAttachment.colorBlendOp = BlendOp.add ∧
    bloomRenderPass1.attachments.map AttachmentDesc.loadOp = [LoadOp.load] ∧
    ∀ dst : ℚ, blendEval mergeColorBlendAttachment 0 dst = dst := by
  refine ⟨rfl, rfl, rfl, rfl, rfl, fun dst => ?_⟩
  simp [blendEval, mergeColorBlendAttachment, blendFactorValue]

/-- C9: for a model whose AO map is absent (its `aoMap.image` is the
invalid name), the geometry-pass descriptor set's AO binding (binding 6)
is written exactly once, with the albedo map's view and sampler; for a
model whose AO map is present, it is written exactly once with the
model's own AO view and sampler. -/
theorem staticMesh_ao_binding_fallback (m : VModelTextures) :
    (m.aoMapImage = invalidName →
      (staticMeshImageWrites m).filter (fun wr => wr.binding == 6) =
        [{ binding := 6, view := m.albedoMapView, sampler := m.albedoMapSampler }]) ∧
    (m.aoMapImage ≠ invalidName →
      (staticMeshImageWrites m).filter (fun wr => wr.binding == 6) =
        [{ binding := 6, view := m.aoMapView, sampler := m.aoMapSampler }]) := by
  constructor <;> intro hm <;> simp [staticMeshImageWrites, hm, List.filter]

/-- Witness for C9: one model without an AO map, one with. -/
theorem staticMesh_ao_binding_fallback_witness :
    (staticMeshImageWrites
        { albedoMapView := 10, albedoMapSampler := 11, normalMapView := 12,
          normalMapSampler := 13, roughnessMapView := 14, roughnessMapSampler := 15,
          metalnessMapView := 16, metalnessMapSampler := 17,
          aoMapImage := invalidName, aoMapView := 0, aoMapSampler := 0 }).filter
        (fun wr => wr.binding == 6) =
      [{ binding := 6, view := 10, sampler := 11 }] ∧
    (staticMeshImageWrites
        { albedoMapView := 10, albedoMapSampler := 11, normalMapView := 12,
          normalMapSampler := 13, roughnessMapView := 14, roughnessMapSampler := 15,
          metalnessMapView := 16, metalnessMapSampler := 17,
          aoMapImage := 5, aoMapView := 20, aoMapSampler := 21 }).filter
        (fun wr => wr.binding == 6) =
      [{ binding := 6, view := 20, sampler := 21 }] :=
  ⟨(staticMesh_ao_binding_fallback _).1 rfl,
   (staticMesh_ao_binding_fallback _).2 (by decide)⟩

/-- C10: evaluation at the failing input.  At alignment 256 with one
model and a 64-byte per-model structure, every uniform-buffer descriptor
write binds its backing structure's offset and full size — except the
skybox set's binding 0, which binds the transformation-matrix offset
(512) with `sizeof(DisplayInfoUniformBuffer)` = 4 bytes instead of
`sizeof(TransMatsUniformBuffer)` = 64 bytes. -/
theorem skybox_binding0_size_mismatch :
    uniformBufferWrites 256 64 1 =
      [ ⟨DescriptorSetName.specEnvPrefilterSet, 0, 0, 448⟩,
        ⟨DescriptorSetName.skyboxSet, 0, 512, 4⟩,
        ⟨DescriptorSetName.geomSet 0, 0, 512, 64⟩,
        ⟨DescriptorSetName.geomSet 0, 1, 1280, 64⟩,
        ⟨DescriptorSetName.lightingSet, 0, 768, 80⟩,
        ⟨DescriptorSetName.finalOutputSet, 5, 1024, 4⟩ ] ∧
    (uniformOffsets 256 64 1).transMats = 512 ∧
    sizeofDisplayInfoUniformBuffer = 4 ∧
    sizeofTransMatsUniformBuffer = 64 ∧
    sizeofDisplayInfoUniformBuffer ≠ sizeofTransMatsUniformBuffer := by decide

end LaughEngine
